import Mathlib

/-!
# QuickDesk ticket lifecycle and access control — verification

Shallow embedding of the QuickDesk help-desk backend: the ticket data
model (`models/Ticket.js`), the ticket routes (create/list/get/update,
comments, voting), the category creation route (`routes/categories.js`)
and the authorization middleware (`canAccessTicket`).  User ids and
object ids are modelled as `Nat`; Mongo documents become Lean
structures; each Express handler becomes a pure function returning
`Except ApiError _`.
-/

namespace QuickDesk

/-- User roles, the `role` enum of the User model. -/
inductive Role
  | user
  | agent
  | admin
deriving DecidableEq, Repr

/-- Ticket status enum (`models/Ticket.js`): open, in-progress, resolved, closed. -/
inductive Status
  | opn
  | inProgress
  | resolved
  | closed
deriving DecidableEq, Repr

/-- Ticket priority enum (`models/Ticket.js`): low, medium, high, urgent. -/
inductive Priority
  | low
  | medium
  | high
  | urgent
deriving DecidableEq, Repr

/-- The authenticated requester attached to `req.user` by the `protect`
middleware: id and role.  (`isActive` accounts are rejected by `protect`
before any route handler runs, so every requester here is active.) -/
structure Requester where
  id : Nat
  role : Role
deriving DecidableEq, Repr

/-- Embedded comment sub-document (`commentSchema` in `models/Ticket.js`). -/
structure Comment where
  content : String
  author : Nat
  isInternal : Bool
deriving DecidableEq, Repr

/-- Ticket document (`ticketSchema` in `models/Ticket.js`).  `upvotes` and
`downvotes` are arrays of user ids, as in Mongo; `resolvedAt`/`closedAt`
are optional timestamps (`none` = unset); `createdAt` is the creation
timestamp used as the default sort key of the list route. -/
structure Ticket where
  subject : String
  description : String
  category : Nat
  status : Status
  priority : Priority
  createdBy : Nat
  assignedTo : Option Nat
  comments : List Comment
  upvotes : List Nat
  downvotes : List Nat
  tags : List String
  resolvedAt : Option Nat
  closedAt : Option Nat
  createdAt : Nat
deriving DecidableEq, Repr

/-- Error taxonomy: the HTTP status codes the handlers return
(400 validation, 403 authorization, 404 not found; 400 with a conflict
message for duplicate categories). -/
inductive ApiError
  | validation
  | notAuthorized
  | notFound
  | conflict
deriving DecidableEq, Repr

/-- `canAccessTicket` middleware (`middleware/auth.js`): access is granted
iff the requester is the ticket creator, the assignee, an admin or an
agent. -/
def canAccessTicket (u : Requester) (t : Ticket) : Bool :=
  let isOwner := t.createdBy = u.id
  let isAssigned := t.assignedTo = some u.id
  let isAdmin := u.role = Role.admin
  let isAgent := u.role = Role.agent
  isOwner || isAssigned || isAdmin || isAgent

/-- `GET /api/tickets/:id`: the `canAccessTicket` middleware rejects with
403 before the handler; the handler returns the (populated) ticket. -/
def getTicket (u : Requester) (t : Ticket) : Except ApiError Ticket :=
  if canAccessTicket u t then Except.ok t
  else Except.error ApiError.notAuthorized

/-! ## Voting (`POST /api/tickets/:id/vote`)

The handler looks up the requester's index in `upvotes` and `downvotes`
(`findIndex` by id equality, i.e. first occurrence), then toggles:
`splice` at the found index removes that first occurrence, which is
`List.erase`; `push` appends at the end. -/

/-- The vote route body is `{ voteType }`, a raw string; anything other
than `"upvote"` or `"downvote"` is rejected with 400 before any
mutation. -/
def voteOp (uid : Nat) (voteType : String) (t : Ticket) : Except ApiError Ticket :=
  if voteType = "upvote" then
    if uid ∈ t.upvotes then
      Except.ok { t with upvotes := t.upvotes.erase uid }
    else
      Except.ok { t with
        upvotes := t.upvotes ++ [uid],
        downvotes := if uid ∈ t.downvotes then t.downvotes.erase uid else t.downvotes }
  else if voteType = "downvote" then
    if uid ∈ t.downvotes then
      Except.ok { t with downvotes := t.downvotes.erase uid }
    else
      Except.ok { t with
        downvotes := t.downvotes ++ [uid],
        upvotes := if uid ∈ t.upvotes then t.upvotes.erase uid else t.upvotes }
  else
    Except.error ApiError.validation

/-- One step of a vote sequence: on error the route mutates nothing, so
the ticket is kept as is. -/
def voteApply (t : Ticket) (step : Nat × String) : Ticket :=
  match voteOp step.1 step.2 t with
  | Except.ok t2 => t2
  | Except.error _ => t

/-- Running a whole sequence of vote requests against a ticket. -/
def voteRun (t : Ticket) (steps : List (Nat × String)) : Ticket :=
  steps.foldl voteApply t

/-- Two lists share no element. -/
def disjointVotes (up down : List Nat) : Prop :=
  ∀ x, x ∈ up → x ∉ down

/-- The voter-set invariant: both arrays are duplicate-free and no user
appears in both. -/
def VoteInv (t : Ticket) : Prop :=
  t.upvotes.Nodup ∧ t.downvotes.Nodup ∧ disjointVotes t.upvotes t.downvotes

/-- Helper: erasing from the left list keeps it duplicate-free and keeps
the two lists disjoint. -/
theorem nodup_disj_erase {a : Nat} {l₁ l₂ : List Nat}
    (h₁ : l₁.Nodup) (hdisj : ∀ x ∈ l₁, x ∉ l₂) :
    (l₁.erase a).Nodup ∧ ∀ x ∈ l₁.erase a, x ∉ l₂ :=
  ⟨h₁.erase a, fun x hx => hdisj x (List.mem_of_mem_erase hx)⟩

/-- Helper: appending a fresh element to the left list and erasing it (if
present) from the right list keeps both lists duplicate-free and
disjoint. -/
theorem nodup_disj_add {a : Nat} {l₁ l₂ : List Nat}
    (h₁ : l₁.Nodup) (h₂ : l₂.Nodup) (hdisj : ∀ x ∈ l₁, x ∉ l₂) (hmem : a ∉ l₁) :
    (l₁ ++ [a]).Nodup ∧ (if a ∈ l₂ then l₂.erase a else l₂).Nodup ∧
      ∀ x ∈ l₁ ++ [a], x ∉ (if a ∈ l₂ then l₂.erase a else l₂) := by
  refine ⟨h₁.append (List.nodup_singleton a) ?_, ?_, ?_⟩
  · intro b hb hb2
    rw [List.mem_singleton] at hb2
    exact hmem (hb2 ▸ hb)
  · by_cases hA : a ∈ l₂
    · rw [if_pos hA]; exact h₂.erase a
    · rw [if_neg hA]; exact h₂
  · intro x hx
    rcases List.mem_append.mp hx with hx1 | hx2
    · by_cases hA : a ∈ l₂
      · rw [if_pos hA]
        exact fun hc => hdisj x hx1 (List.mem_of_mem_erase hc)
      · rw [if_neg hA]; exact hdisj x hx1
    · rw [List.mem_singleton] at hx2
      rw [hx2]
      by_cases hA : a ∈ l₂
      · rw [if_pos hA]
        intro hc
        exact (h₂.mem_erase_iff.mp hc).1 rfl
      · rw [if_neg hA]; exact hA

/-- Disjointness of lists is symmetric. -/
theorem disj_symm {l₁ l₂ : List Nat} (h : ∀ x ∈ l₁, x ∉ l₂) :
    ∀ x ∈ l₂, x ∉ l₁ :=
  fun x hx2 hx1 => h x hx1 hx2

/-- A single successful vote request preserves the voter-set invariant. -/
theorem voteOp_inv {uid : Nat} {ty : String} {t t2 : Ticket}
    (hinv : VoteInv t) (h : voteOp uid ty t = Except.ok t2) : VoteInv t2 := by
  obtain ⟨hu, hd, hdisj⟩ := hinv
  unfold voteOp at h
  by_cases hty : ty = "upvote"
  · rw [if_pos hty] at h
    by_cases hmem : uid ∈ t.upvotes
    · rw [if_pos hmem] at h
      cases h
      obtain ⟨n1, d1⟩ := @nodup_disj_erase uid _ _ hu hdisj
      exact ⟨n1, hd, d1⟩
    · rw [if_neg hmem] at h
      cases h
      obtain ⟨n1, n2, d1⟩ := @nodup_disj_add uid _ _ hu hd hdisj hmem
      exact ⟨n1, n2, d1⟩
  · rw [if_neg hty] at h
    by_cases hty2 : ty = "downvote"
    · rw [if_pos hty2] at h
      by_cases hmem : uid ∈ t.downvotes
      · rw [if_pos hmem] at h
        cases h
        obtain ⟨n1, d1⟩ := @nodup_disj_erase uid _ _ hd (disj_symm hdisj)
        exact ⟨hu, n1, disj_symm d1⟩
      · rw [if_neg hmem] at h
        cases h
        obtain ⟨n1, n2, d1⟩ := @nodup_disj_add uid _ _ hd hu (disj_symm hdisj) hmem
        exact ⟨n2, n1, disj_symm d1⟩
    · rw [if_neg hty2] at h
      cases h

/-- One step of the vote sequence (request applied, or rejected and the
ticket left alone) preserves the invariant. -/
theorem voteApply_inv {t : Ticket} {step : Nat × String}
    (hinv : VoteInv t) : VoteInv (voteApply t step) := by
  unfold voteApply
  cases hv : voteOp step.1 step.2 t with
  | ok t2 => exact voteOp_inv hinv hv
  | error e => exact hinv

/-- Any sequence of vote requests preserves the invariant. -/
theorem voteRun_inv {t : Ticket} (steps : List (Nat × String))
    (hinv : VoteInv t) : VoteInv (voteRun t steps) := by
  induction steps generalizing t with
  | nil => exact hinv
  | cons s ss ih => exact ih (voteApply_inv hinv)

/-- Helper: erasing an element of a list and re-appending it preserves
membership. -/
theorem mem_erase_append_singleton {a : Nat} {l : List Nat} (ha : a ∈ l) (x : Nat) :
    x ∈ l.erase a ++ [a] ↔ x ∈ l := by
  simp only [List.mem_append, List.mem_singleton]
  constructor
  · rintro (h | rfl)
    · exact List.mem_of_mem_erase h
    · exact ha
  · intro hx
    by_cases hxa : x = a
    · right; exact hxa
    · left; exact (List.mem_erase_of_ne hxa).mpr hx

/-- Helper: erasing a freshly appended element restores the list. -/
theorem erase_append_singleton_self {a : Nat} {l : List Nat} (h : a ∉ l) :
    (l ++ [a]).erase a = l := by
  rw [List.erase_append_right _ h]
  simp

/-- Step equation: toggling off an existing upvote. -/
theorem voteApply_up_mem {t : Ticket} {uid : Nat} (h : uid ∈ t.upvotes) :
    voteApply t (uid, "upvote") = { t with upvotes := t.upvotes.erase uid } := by
  simp [voteApply, voteOp, h]

/-- Step equation: adding an upvote (and clearing any downvote). -/
theorem voteApply_up_notmem {t : Ticket} {uid : Nat} (h : uid ∉ t.upvotes) :
    voteApply t (uid, "upvote") = { t with
      upvotes := t.upvotes ++ [uid],
      downvotes := if uid ∈ t.downvotes then t.downvotes.erase uid else t.downvotes } := by
  simp [voteApply, voteOp, h]

/-- Step equation: toggling off an existing downvote. -/
theorem voteApply_down_mem {t : Ticket} {uid : Nat} (h : uid ∈ t.downvotes) :
    voteApply t (uid, "downvote") = { t with downvotes := t.downvotes.erase uid } := by
  simp [voteApply, voteOp, h]

/-- Step equation: adding a downvote (and clearing any upvote). -/
theorem voteApply_down_notmem {t : Ticket} {uid : Nat} (h : uid ∉ t.downvotes) :
    voteApply t (uid, "downvote") = { t with
      downvotes := t.downvotes ++ [uid],
      upvotes := if uid ∈ t.upvotes then t.upvotes.erase uid else t.upvotes } := by
  simp [voteApply, voteOp, h]

/-- A sample ticket used to instantiate concrete witnesses. -/
def sampleTicket : Ticket where
  subject := "Printer broken"
  description := "The office printer keeps jamming"
  category := 1
  status := Status.opn
  priority := Priority.medium
  createdBy := 1
  assignedTo := none
  comments := []
  upvotes := [5]
  downvotes := [9]
  tags := []
  resolvedAt := none
  closedAt := none
  createdAt := 100

/-- C2: for every ticket whose voter arrays are duplicate-free and
disjoint (as they are for every ticket built by the application, which
starts them empty), any finite sequence of vote requests leaves the
upvoter and downvoter sets disjoint: no user id is in both. -/
theorem vote_sequences_preserve_disjointness (t : Ticket)
    (steps : List (Nat × String)) (hinv : VoteInv t) :
    disjointVotes (voteRun t steps).upvotes (voteRun t steps).downvotes :=
  (voteRun_inv steps hinv).2.2

/-- Witness for C2 at a concrete ticket and a concrete vote sequence. -/
theorem vote_sequences_preserve_disjointness_witness :
    VoteInv sampleTicket ∧
      disjointVotes
        (voteRun sampleTicket [(9, "upvote"), (5, "downvote"), (7, "upvote")]).upvotes
        (voteRun sampleTicket [(9, "upvote"), (5, "downvote"), (7, "upvote")]).downvotes := by
  have hinv : VoteInv sampleTicket := by
    refine ⟨by decide, by decide, ?_⟩
    intro x hx hx2
    simp [sampleTicket] at hx hx2
    omega
  exact ⟨hinv, vote_sequences_preserve_disjointness sampleTicket _ hinv⟩

/-- Counterexample to C6 as stated: user 9 starts in the downvoter set of
`sampleTicket`; after voting "upvote" twice, 9 is no longer a downvoter,
so the sets are not restored to their pre-vote state (the first upvote
removed the downvote and the second only undid the upvote). -/
theorem vote_double_same_direction_counterexample :
    9 ∈ sampleTicket.downvotes ∧
      9 ∉ (voteRun sampleTicket [(9, "upvote"), (9, "upvote")]).downvotes := by
  decide

/-- C6 (amended): for a ticket with duplicate-free voter arrays, voting
twice in the same direction restores both voter sets — provided the user
was not in the opposite direction's set before the first vote (otherwise
the first vote also removes that opposite vote, which the second vote
does not restore). -/
theorem vote_double_same_direction_restores_sets (t : Ticket) (uid : Nat)
    (hu : t.upvotes.Nodup) (hd : t.downvotes.Nodup) :
    (uid ∉ t.downvotes → ∀ x,
      (x ∈ (voteRun t [(uid, "upvote"), (uid, "upvote")]).upvotes ↔ x ∈ t.upvotes) ∧
      (x ∈ (voteRun t [(uid, "upvote"), (uid, "upvote")]).downvotes ↔ x ∈ t.downvotes)) ∧
    (uid ∉ t.upvotes → ∀ x,
      (x ∈ (voteRun t [(uid, "downvote"), (uid, "downvote")]).upvotes ↔ x ∈ t.upvotes) ∧
      (x ∈ (voteRun t [(uid, "downvote"), (uid, "downvote")]).downvotes ↔ x ∈ t.downvotes)) := by
  constructor
  · intro hopp x
    have e1 : voteRun t [(uid, "upvote"), (uid, "upvote")] =
        voteApply (voteApply t (uid, "upvote")) (uid, "upvote") := rfl
    by_cases hmem : uid ∈ t.upvotes
    · have hnot : uid ∉ ({ t with upvotes := t.upvotes.erase uid } : Ticket).upvotes :=
        fun hc => (hu.mem_erase_iff.mp hc).1 rfl
      rw [e1, voteApply_up_mem hmem, voteApply_up_notmem hnot]
      simp [mem_erase_append_singleton hmem, hopp]
    · have hmem2 : uid ∈ ({ t with
          upvotes := t.upvotes ++ [uid],
          downvotes := if uid ∈ t.downvotes then t.downvotes.erase uid
            else t.downvotes } : Ticket).upvotes :=
        List.mem_append.mpr (Or.inr (List.mem_singleton.mpr rfl))
      rw [e1, voteApply_up_notmem hmem, voteApply_up_mem hmem2]
      simp [erase_append_singleton_self hmem, hopp]
  · intro hopp x
    have e1 : voteRun t [(uid, "downvote"), (uid, "downvote")] =
        voteApply (voteApply t (uid, "downvote")) (uid, "downvote") := rfl
    by_cases hmem : uid ∈ t.downvotes
    · have hnot : uid ∉ ({ t with downvotes := t.downvotes.erase uid } : Ticket).downvotes :=
        fun hc => (hd.mem_erase_iff.mp hc).1 rfl
      rw [e1, voteApply_down_mem hmem, voteApply_down_notmem hnot]
      simp [mem_erase_append_singleton hmem, hopp]
    · have hmem2 : uid ∈ ({ t with
          downvotes := t.downvotes ++ [uid],
          upvotes := if uid ∈ t.upvotes then t.upvotes.erase uid
            else t.upvotes } : Ticket).downvotes :=
        List.mem_append.mpr (Or.inr (List.mem_singleton.mpr rfl))
      rw [e1, voteApply_down_notmem hmem, voteApply_down_mem hmem2]
      simp [erase_append_singleton_self hmem, hopp]

/-- Witness for the amended C6 at a concrete ticket and user. -/
theorem vote_double_same_direction_restores_sets_witness :
    sampleTicket.upvotes.Nodup ∧ sampleTicket.downvotes.Nodup ∧
      (5 : Nat) ∉ sampleTicket.downvotes ∧
      ((5 : Nat) ∈ (voteRun sampleTicket [(5, "upvote"), (5, "upvote")]).upvotes ↔
        (5 : Nat) ∈ sampleTicket.upvotes) :=
  ⟨by decide, by decide, by decide,
    ((vote_double_same_direction_restores_sets sampleTicket 5 (by decide) (by decide)).1
      (by decide) 5).1⟩

/-- C10: a vote request whose `voteType` is neither `"upvote"` nor
`"downvote"` is rejected with a validation error (HTTP 400) before any
mutation, so the ticket — voter sets included — is unchanged. -/
theorem vote_invalid_type_rejected (t : Ticket) (uid : Nat) (ty : String)
    (h1 : ty ≠ "upvote") (h2 : ty ≠ "downvote") :
    voteOp uid ty t = Except.error ApiError.validation ∧ voteApply t (uid, ty) = t := by
  have hop : voteOp uid ty t = Except.error ApiError.validation := by
    unfold voteOp
    rw [if_neg h1, if_neg h2]
  exact ⟨hop, by simp [voteApply, hop]⟩

/-- Witness for C10 at a concrete invalid vote type. -/
theorem vote_invalid_type_rejected_witness :
    voteOp 3 "sideways" sampleTicket = Except.error ApiError.validation ∧
      voteApply sampleTicket (3, "sideways") = sampleTicket :=
  vote_invalid_type_rejected sampleTicket 3 "sideways" (by decide) (by decide)

/-! ## Ticket update (`PUT /api/tickets/:id`)

Middleware order: `protect`, `canAccessTicket` (403), express-validator
sanitizers/checks (400), then the handler: a role gate (403 for a
`user`-role requester who is not the owner), field-conditional
assignment, and `ticket.save()` which runs the schema's `pre('save')`
hook. -/

/-- `ticketSchema.pre('save')` (`models/Ticket.js`): when the status path
was modified, stamp `resolvedAt` on first entry into `resolved`, else
stamp `closedAt` on first entry into `closed`; never cleared. -/
def preSaveHook (statusModified : Bool) (now : Nat) (t : Ticket) : Ticket :=
  if statusModified then
    if t.status = Status.resolved ∧ t.resolvedAt = none then
      { t with resolvedAt := some now }
    else if t.status = Status.closed ∧ t.closedAt = none then
      { t with closedAt := some now }
    else t
  else t

/-- `ticket.save()`: run the pre-save hook against mongoose's
modified-paths tracking — the `status` path counts as modified when the
saved value differs from the loaded document's value. -/
def saveTicket (orig : Ticket) (now : Nat) (t : Ticket) : Ticket :=
  preSaveHook (decide (t.status ≠ orig.status)) now t

/-- The whitespace characters stripped by the express-validator `trim()`
sanitizer (validator.js strips standard whitespace from both ends). -/
def isWhitespaceChar (c : Char) : Bool :=
  c = ' ' || c = '\t' || c = '\n' || c = '\r'

/-- Executable model of the `trim()` sanitizer: strip leading and
trailing whitespace. -/
def jsTrim (s : String) : String :=
  String.mk (((s.toList.dropWhile isWhitespaceChar).reverse.dropWhile isWhitespaceChar).reverse)

/-- The (already type-validated) update request body: `none` = field not
supplied.  `status`/`priority` are typed because the route's
`isIn` validators reject anything outside the enums; `assignedTo` passed
`isMongoId`; `subject`/`description` are raw strings whose trimmed
length the validators check; `category` is destructured from the body
with no validator at all. -/
structure UpdateBody where
  subject : Option String
  description : Option String
  status : Option Status
  priority : Option Priority
  assignedTo : Option Nat
  category : Option Nat
deriving DecidableEq, Repr

/-- The `subject`/`description` validators of the update route: both are
optional, trimmed, then length-checked (5–200 and ≥10). -/
def validUpdateBody (b : UpdateBody) : Bool :=
  (match b.subject with
   | some s => 5 ≤ (jsTrim s).length && (jsTrim s).length ≤ 200
   | none => true) &&
  (match b.description with
   | some d => 10 ≤ (jsTrim d).length
   | none => true)

/-- The workflow-field block of the update handler, reached only when
`isAgent || isAdmin || isAssigned`: `if (status) ... if (priority) ...
if (assignedTo) ...`. -/
def applyWorkflowFields (b : UpdateBody) (t : Ticket) : Ticket :=
  let t1 := match b.status with
    | some s => { t with status := s }
    | none => t
  let t2 := match b.priority with
    | some p => { t1 with priority := p }
    | none => t1
  match b.assignedTo with
  | some a => { t2 with assignedTo := some a }
  | none => t2

/-- The basic-field block of the update handler, reached by anyone with
ticket access: `if (subject) ... if (description) ... if (category) ...`
(the validator sanitizers have trimmed subject and description). -/
def applyBasicFields (b : UpdateBody) (t : Ticket) : Ticket :=
  let t1 := match b.subject with
    | some s => { t with subject := jsTrim s }
    | none => t
  let t2 := match b.description with
    | some d => { t1 with description := jsTrim d }
    | none => t1
  match b.category with
  | some c => { t2 with category := c }
  | none => t2

/-- `PUT /api/tickets/:id`: access middleware, validation, role gate,
field application, save (with the pre-save hook; the status path counts
as modified when its value changed). -/
def updateTicket (u : Requester) (b : UpdateBody) (now : Nat) (t : Ticket) :
    Except ApiError Ticket :=
  if ¬ canAccessTicket u t then Except.error ApiError.notAuthorized
  else if ¬ validUpdateBody b then Except.error ApiError.validation
  else if u.role = Role.user ∧ ¬ t.createdBy = u.id then
    Except.error ApiError.notAuthorized
  else
    Except.ok (saveTicket t now (applyBasicFields b
      (if u.role = Role.agent ∨ u.role = Role.admin ∨ t.assignedTo = some u.id
       then applyWorkflowFields b t else t)))

/-- The pre-save hook only ever touches `resolvedAt`/`closedAt`. -/
theorem preSaveHook_status (m : Bool) (now : Nat) (t : Ticket) :
    (preSaveHook m now t).status = t.status := by
  unfold preSaveHook
  split_ifs <;> rfl

/-- The pre-save hook leaves `priority` alone. -/
theorem preSaveHook_priority (m : Bool) (now : Nat) (t : Ticket) :
    (preSaveHook m now t).priority = t.priority := by
  unfold preSaveHook
  split_ifs <;> rfl

/-- The pre-save hook leaves `assignedTo` alone. -/
theorem preSaveHook_assignedTo (m : Bool) (now : Nat) (t : Ticket) :
    (preSaveHook m now t).assignedTo = t.assignedTo := by
  unfold preSaveHook
  split_ifs <;> rfl

/-- The pre-save hook leaves `subject` alone. -/
theorem preSaveHook_subject (m : Bool) (now : Nat) (t : Ticket) :
    (preSaveHook m now t).subject = t.subject := by
  unfold preSaveHook
  split_ifs <;> rfl

/-- The pre-save hook leaves `description` alone. -/
theorem preSaveHook_description (m : Bool) (now : Nat) (t : Ticket) :
    (preSaveHook m now t).description = t.description := by
  unfold preSaveHook
  split_ifs <;> rfl

/-- The pre-save hook never clears or overwrites a set `resolvedAt`. -/
theorem preSaveHook_resolvedAt_some {m : Bool} {now : Nat} {t : Ticket} {r : Nat}
    (h : t.resolvedAt = some r) : (preSaveHook m now t).resolvedAt = some r := by
  unfold preSaveHook
  split_ifs with h1 h2 h3
  · rw [h] at h2
    exact absurd h2.2 (by simp)
  · exact h
  · exact h
  · exact h

/-- The pre-save hook never clears or overwrites a set `closedAt`. -/
theorem preSaveHook_closedAt_some {m : Bool} {now : Nat} {t : Ticket} {c : Nat}
    (h : t.closedAt = some c) : (preSaveHook m now t).closedAt = some c := by
  unfold preSaveHook
  split_ifs with h1 h2 h3
  · exact h
  · rw [h] at h3
    exact absurd h3.2 (by simp)
  · exact h
  · exact h

/-- Basic-field assignment touches neither the workflow fields nor the
lifecycle timestamps. -/
theorem applyBasicFields_preserves (b : UpdateBody) (t : Ticket) :
    (applyBasicFields b t).status = t.status ∧
      (applyBasicFields b t).priority = t.priority ∧
      (applyBasicFields b t).assignedTo = t.assignedTo ∧
      (applyBasicFields b t).resolvedAt = t.resolvedAt ∧
      (applyBasicFields b t).closedAt = t.closedAt := by
  unfold applyBasicFields
  cases b.subject <;> cases b.description <;> cases b.category <;> exact ⟨rfl, rfl, rfl, rfl, rfl⟩

/-- A supplied subject is applied (trimmed by the validator sanitizer). -/
theorem applyBasicFields_subject {b : UpdateBody} (t : Ticket) {s : String}
    (h : b.subject = some s) : (applyBasicFields b t).subject = jsTrim s := by
  unfold applyBasicFields
  rw [h]
  cases b.description <;> cases b.category <;> rfl

/-- A supplied description is applied (trimmed by the validator sanitizer). -/
theorem applyBasicFields_description {b : UpdateBody} (t : Ticket) {d : String}
    (h : b.description = some d) : (applyBasicFields b t).description = jsTrim d := by
  unfold applyBasicFields
  cases b.subject <;> rw [h] <;> cases b.category <;> rfl

/-- Workflow-field assignment never touches the lifecycle timestamps. -/
theorem applyWorkflowFields_preserves (b : UpdateBody) (t : Ticket) :
    (applyWorkflowFields b t).resolvedAt = t.resolvedAt ∧
      (applyWorkflowFields b t).closedAt = t.closedAt := by
  unfold applyWorkflowFields
  cases b.status <;> cases b.priority <;> cases b.assignedTo <;> exact ⟨rfl, rfl⟩

/-- A supplied status is applied by the workflow block. -/
theorem applyWorkflowFields_status {b : UpdateBody} (t : Ticket) {s : Status}
    (h : b.status = some s) : (applyWorkflowFields b t).status = s := by
  unfold applyWorkflowFields
  rw [h]
  cases b.priority <;> cases b.assignedTo <;> rfl

/-- A supplied priority is applied by the workflow block. -/
theorem applyWorkflowFields_priority {b : UpdateBody} (t : Ticket) {p : Priority}
    (h : b.priority = some p) : (applyWorkflowFields b t).priority = p := by
  unfold applyWorkflowFields
  cases b.status <;> rw [h] <;> cases b.assignedTo <;> rfl

/-- A supplied assignee is applied by the workflow block. -/
theorem applyWorkflowFields_assignedTo {b : UpdateBody} (t : Ticket) {a : Nat}
    (h : b.assignedTo = some a) : (applyWorkflowFields b t).assignedTo = some a := by
  unfold applyWorkflowFields
  cases b.status <;> cases b.priority <;> rw [h]

/-- C1: a `user`-role requester who owns the ticket but is not its
assignee gets a successful update in which supplied `status`,
`priority` and `assignedTo` values are silently ignored while supplied
`subject` and `description` values are applied. -/
theorem user_owner_update_ignores_workflow_fields
    (u : Requester) (b : UpdateBody) (now : Nat) (t : Ticket) (sub d : String)
    (hrole : u.role = Role.user)
    (howner : t.createdBy = u.id)
    (hassign : t.assignedTo ≠ some u.id)
    (hs : b.status.isSome) (hp : b.priority.isSome) (ha : b.assignedTo.isSome)
    (hsub : b.subject = some sub) (hdesc : b.description = some d)
    (hvalid : validUpdateBody b = true) :
    ∃ t2, updateTicket u b now t = Except.ok t2 ∧
      t2.status = t.status ∧ t2.priority = t.priority ∧
      t2.assignedTo = t.assignedTo ∧
      t2.subject = jsTrim sub ∧ t2.description = jsTrim d := by
  have hacc : canAccessTicket u t = true := by simp [canAccessTicket, howner]
  have hguard : ¬(u.role = Role.agent ∨ u.role = Role.admin ∨ t.assignedTo = some u.id) := by
    rw [hrole]
    simp [hassign]
  unfold updateTicket
  rw [if_neg (by simp [hacc]), if_neg (by simp [hvalid]),
    if_neg (by simp [howner]), if_neg hguard]
  refine ⟨_, rfl, ?_, ?_, ?_, ?_, ?_⟩
  · rw [saveTicket, preSaveHook_status, (applyBasicFields_preserves b t).1]
  · rw [saveTicket, preSaveHook_priority, (applyBasicFields_preserves b t).2.1]
  · rw [saveTicket, preSaveHook_assignedTo, (applyBasicFields_preserves b t).2.2.1]
  · rw [saveTicket, preSaveHook_subject, applyBasicFields_subject t hsub]
  · rw [saveTicket, preSaveHook_description, applyBasicFields_description t hdesc]

/-- Witness for C1: user 1 owns `sampleTicket`, is not assigned to it,
and supplies every field. -/
theorem user_owner_update_ignores_workflow_fields_witness :
    sampleTicket.createdBy = 1 ∧ sampleTicket.assignedTo ≠ some 1 ∧
      validUpdateBody ⟨some "Replace the printer", some "The printer is beyond repair",
        some Status.resolved, some Priority.high, some 4, none⟩ = true ∧
      ∃ t2, updateTicket ⟨1, Role.user⟩
          ⟨some "Replace the printer", some "The printer is beyond repair",
            some Status.resolved, some Priority.high, some 4, none⟩ 200 sampleTicket =
          Except.ok t2 ∧
        t2.status = sampleTicket.status ∧ t2.priority = sampleTicket.priority ∧
        t2.assignedTo = sampleTicket.assignedTo ∧
        t2.subject = jsTrim "Replace the printer" ∧
        t2.description = jsTrim "The printer is beyond repair" :=
  ⟨by decide, by decide, by decide,
    user_owner_update_ignores_workflow_fields ⟨1, Role.user⟩ _ 200 sampleTicket
      "Replace the printer" "The printer is beyond repair"
      rfl (by decide) (by decide) rfl rfl rfl rfl rfl (by decide)⟩

/-- Counterexample to C7 as stated: user 2 is the assignee of this
ticket but has role `user` and is not its creator, so the handler's
early gate (`role === 'user' && !isOwner`) rejects the update with 403
and the supplied status is never applied. -/
theorem assignee_update_counterexample :
    ({ sampleTicket with assignedTo := some 2 } : Ticket).assignedTo = some 2 ∧
      updateTicket ⟨2, Role.user⟩
          ⟨none, none, some Status.resolved, none, none, none⟩ 200
          { sampleTicket with assignedTo := some 2 } =
        Except.error ApiError.notAuthorized := by
  constructor
  · rfl
  · rfl

/-- C7 (amended): a requester who is the ticket's assignee and is not a
non-owner of role `user` (i.e. has role agent/admin, or also owns the
ticket) gets supplied `status`, `priority` and `assignedTo` values
applied. -/
theorem assignee_update_applies_workflow_fields
    (u : Requester) (b : UpdateBody) (now : Nat) (t : Ticket)
    (s : Status) (p : Priority) (a : Nat)
    (hassign : t.assignedTo = some u.id)
    (hgate : u.role ≠ Role.user ∨ t.createdBy = u.id)
    (hs : b.status = some s) (hp : b.priority = some p) (ha : b.assignedTo = some a)
    (hvalid : validUpdateBody b = true) :
    ∃ t2, updateTicket u b now t = Except.ok t2 ∧
      t2.status = s ∧ t2.priority = p ∧ t2.assignedTo = some a := by
  have hacc : canAccessTicket u t = true := by simp [canAccessTicket, hassign]
  have hguard : u.role = Role.agent ∨ u.role = Role.admin ∨ t.assignedTo = some u.id :=
    Or.inr (Or.inr hassign)
  have hgate2 : ¬(u.role = Role.user ∧ ¬ t.createdBy = u.id) := by
    rcases hgate with h | h
    · simp [h]
    · simp [h]
  unfold updateTicket
  rw [if_neg (by simp [hacc]), if_neg (by simp [hvalid]), if_neg hgate2, if_pos hguard]
  refine ⟨_, rfl, ?_, ?_, ?_⟩
  · rw [saveTicket, preSaveHook_status, (applyBasicFields_preserves b _).1,
      applyWorkflowFields_status t hs]
  · rw [saveTicket, preSaveHook_priority, (applyBasicFields_preserves b _).2.1,
      applyWorkflowFields_priority t hp]
  · rw [saveTicket, preSaveHook_assignedTo, (applyBasicFields_preserves b _).2.2.1,
      applyWorkflowFields_assignedTo t ha]

/-- Witness for the amended C7: agent 3 is the assignee. -/
theorem assignee_update_applies_workflow_fields_witness :
    ({ sampleTicket with assignedTo := some 3 } : Ticket).assignedTo = some 3 ∧
      ∃ t2, updateTicket ⟨3, Role.agent⟩
          ⟨none, none, some Status.inProgress, some Priority.urgent, some 4, none⟩ 200
          { sampleTicket with assignedTo := some 3 } = Except.ok t2 ∧
        t2.status = Status.inProgress ∧ t2.priority = Priority.urgent ∧
        t2.assignedTo = some 4 :=
  ⟨rfl, assignee_update_applies_workflow_fields ⟨3, Role.agent⟩ _ 200
    { sampleTicket with assignedTo := some 3 } Status.inProgress Priority.urgent 4
    rfl (Or.inl (by decide)) rfl rfl rfl rfl⟩

/-! ## C3: monotonicity of `resolvedAt`/`closedAt` over update sequences -/

/-- One step of a sequence of update requests: a rejected request
mutates nothing. -/
def updApply (t : Ticket) (step : Requester × UpdateBody × Nat) : Ticket :=
  match updateTicket step.1 step.2.1 step.2.2 t with
  | Except.ok t2 => t2
  | Except.error _ => t

/-- Running a whole sequence of update requests against a ticket. -/
def updRun (t : Ticket) (steps : List (Requester × UpdateBody × Nat)) : Ticket :=
  steps.foldl updApply t

/-- A successful update request (any requester, any fields — in
particular any status change) never clears or overwrites a set
`resolvedAt` or `closedAt`. -/
theorem updateTicket_ok_timestamps {u : Requester} {b : UpdateBody} {now : Nat}
    {t t2 : Ticket} (hu : updateTicket u b now t = Except.ok t2) :
    (∀ r, t.resolvedAt = some r → t2.resolvedAt = some r) ∧
    (∀ c, t.closedAt = some c → t2.closedAt = some c) := by
  unfold updateTicket at hu
  split_ifs at hu with h1 h2 h3 h4
  · cases hu
    constructor
    · intro r hr
      unfold saveTicket
      apply preSaveHook_resolvedAt_some
      rw [(applyBasicFields_preserves _ _).2.2.2.1, (applyWorkflowFields_preserves _ _).1]
      exact hr
    · intro c hc
      unfold saveTicket
      apply preSaveHook_closedAt_some
      rw [(applyBasicFields_preserves _ _).2.2.2.2, (applyWorkflowFields_preserves _ _).2]
      exact hc
  · cases hu
    constructor
    · intro r hr
      unfold saveTicket
      apply preSaveHook_resolvedAt_some
      rw [(applyBasicFields_preserves _ _).2.2.2.1]
      exact hr
    · intro c hc
      unfold saveTicket
      apply preSaveHook_closedAt_some
      rw [(applyBasicFields_preserves _ _).2.2.2.2]
      exact hc

/-- One update step of a sequence preserves set timestamps (rejected
requests mutate nothing). -/
theorem updApply_timestamps (t : Ticket) (step : Requester × UpdateBody × Nat) :
    (∀ r, t.resolvedAt = some r → (updApply t step).resolvedAt = some r) ∧
    (∀ c, t.closedAt = some c → (updApply t step).closedAt = some c) := by
  unfold updApply
  cases hu : updateTicket step.1 step.2.1 step.2.2 t with
  | error e => exact ⟨fun r hr => hr, fun c hc => hc⟩
  | ok t2 => exact updateTicket_ok_timestamps hu

/-- C3: once `resolvedAt` (resp. `closedAt`) is set, no sequence of
update requests — including status changes away from and back into
`resolved`/`closed` — ever clears or overwrites it. -/
theorem timestamps_never_cleared (t : Ticket)
    (steps : List (Requester × UpdateBody × Nat)) (r c : Nat) :
    (t.resolvedAt = some r → (updRun t steps).resolvedAt = some r) ∧
    (t.closedAt = some c → (updRun t steps).closedAt = some c) := by
  induction steps generalizing t with
  | nil => exact ⟨fun h => h, fun h => h⟩
  | cons st ss ih =>
    refine ⟨fun h => ?_, fun h => ?_⟩
    · exact (ih (updApply t st)).1 ((updApply_timestamps t st).1 r h)
    · exact (ih (updApply t st)).2 ((updApply_timestamps t st).2 c h)

/-- A sample ticket already stamped resolved and closed. -/
def resolvedSample : Ticket :=
  { sampleTicket with
      status := Status.resolved,
      resolvedAt := some 50,
      closedAt := some 60 }

/-- Witness for C3: a ticket already stamped resolved/closed, cycled
through `open` and back to `resolved` by an agent. -/
theorem timestamps_never_cleared_witness :
    resolvedSample.resolvedAt = some 50 ∧
      (updRun resolvedSample
        [(⟨3, Role.agent⟩, ⟨none, none, some Status.opn, none, none, none⟩, 90),
         (⟨3, Role.agent⟩, ⟨none, none, some Status.resolved, none, none, none⟩, 120)]).resolvedAt =
        some 50 :=
  ⟨rfl, (timestamps_never_cleared resolvedSample
      [(⟨3, Role.agent⟩, ⟨none, none, some Status.opn, none, none, none⟩, 90),
       (⟨3, Role.agent⟩, ⟨none, none, some Status.resolved, none, none, none⟩, 120)]
      50 60).1 rfl⟩

/-! ## Single-ticket read access (`GET /api/tickets/:id`) and comments -/

/-- The middleware's boolean in terms of the four relationship/role
propositions. -/
theorem canAccessTicket_iff (u : Requester) (t : Ticket) :
    canAccessTicket u t = true ↔
      (t.createdBy = u.id ∨ t.assignedTo = some u.id ∨
        u.role = Role.admin ∨ u.role = Role.agent) := by
  simp [canAccessTicket]
  tauto

/-- C5: fetching an existing ticket succeeds iff the requester is its
creator, its assignee, an admin or an agent; in every other case it
fails with the authorization error and nothing else is returned. -/
theorem getTicket_grant_iff (u : Requester) (t : Ticket) :
    (getTicket u t = Except.ok t ↔
      (t.createdBy = u.id ∨ t.assignedTo = some u.id ∨
        u.role = Role.admin ∨ u.role = Role.agent)) ∧
    (¬(t.createdBy = u.id ∨ t.assignedTo = some u.id ∨
        u.role = Role.admin ∨ u.role = Role.agent) →
      getTicket u t = Except.error ApiError.notAuthorized) := by
  constructor
  · constructor
    · intro hok
      cases hca : canAccessTicket u t with
      | true => exact (canAccessTicket_iff u t).mp hca
      | false =>
        unfold getTicket at hok
        rw [hca] at hok
        cases hok
    · intro hd
      unfold getTicket
      rw [if_pos ((canAccessTicket_iff u t).mpr hd)]
  · intro hno
    unfold getTicket
    rw [if_neg (fun hc => hno ((canAccessTicket_iff u t).mp hc))]

/-- Witness for C5: a stranger (neither creator, assignee, admin nor
agent) is rejected; the creator is granted. -/
theorem getTicket_grant_iff_witness :
    getTicket ⟨42, Role.user⟩ sampleTicket = Except.error ApiError.notAuthorized ∧
      getTicket ⟨1, Role.user⟩ sampleTicket = Except.ok sampleTicket :=
  ⟨(getTicket_grant_iff ⟨42, Role.user⟩ sampleTicket).2 (by decide),
   (getTicket_grant_iff ⟨1, Role.user⟩ sampleTicket).1.mpr (by decide)⟩

/-- `POST /api/tickets/:id/comments`: middleware order is `protect`,
`canAccessTicket` (403), the content/isInternal validators (400, with
`trim()` sanitizing the content), then the handler's internal-comment
role check (403) and the append + save (the save does not modify
`status`, so the pre-save hook leaves the ticket's timestamps alone and
is omitted as the identity). -/
def addComment (u : Requester) (content : String) (isInternal : Bool) (t : Ticket) :
    Except ApiError Ticket :=
  if ¬ canAccessTicket u t then Except.error ApiError.notAuthorized
  else if (jsTrim content).length < 1 then Except.error ApiError.validation
  else if isInternal ∧ ¬(u.role = Role.agent ∨ u.role = Role.admin) then
    Except.error ApiError.notAuthorized
  else Except.ok { t with comments := t.comments ++ [⟨jsTrim content, u.id, isInternal⟩] }

/-- C8: for a requester with read access and non-empty content, adding a
comment flagged internal appends a comment authored by the requester iff
the requester's role is agent or admin; otherwise it is rejected with the
authorization error (so the comment sequence is unchanged). -/
theorem internal_comment_agent_admin_only (u : Requester) (c : String) (t : Ticket)
    (hacc : canAccessTicket u t = true)
    (hlen : 1 ≤ (jsTrim c).length) :
    ((u.role = Role.agent ∨ u.role = Role.admin) →
      addComment u c true t =
        Except.ok { t with comments := t.comments ++ [⟨jsTrim c, u.id, true⟩] }) ∧
    (¬(u.role = Role.agent ∨ u.role = Role.admin) →
      addComment u c true t = Except.error ApiError.notAuthorized) := by
  constructor
  · intro hrole
    unfold addComment
    rw [if_neg (by simp [hacc]), if_neg (by omega), if_neg (by simp [hrole])]
  · intro hrole
    unfold addComment
    rw [if_neg (by simp [hacc]), if_neg (by omega), if_pos ⟨rfl, hrole⟩]

/-- Witness for C8: an agent's internal comment is appended; the ticket
owner's internal comment attempt is rejected. -/
theorem internal_comment_agent_admin_only_witness :
    canAccessTicket ⟨3, Role.agent⟩ sampleTicket = true ∧
      addComment ⟨3, Role.agent⟩ "Escalating internally" true sampleTicket =
        Except.ok { sampleTicket with
          comments := sampleTicket.comments ++ [⟨jsTrim "Escalating internally", 3, true⟩] } ∧
      addComment ⟨1, Role.user⟩ "Escalating internally" true sampleTicket =
        Except.error ApiError.notAuthorized :=
  ⟨by decide,
   (internal_comment_agent_admin_only ⟨3, Role.agent⟩ "Escalating internally" sampleTicket
      (by decide) (by decide)).1 (Or.inl rfl),
   (internal_comment_agent_admin_only ⟨1, Role.user⟩ "Escalating internally" sampleTicket
      (by decide) (by decide)).2 (by decide)⟩

/-! ## Ticket listing (`GET /api/tickets`) -/

/-- The query-string parameters of the list route (absent = `none`).
`assignedTo` is compared against the literal string `"me"`; `sortBy` is
fixed to its default `createdAt` in this model (the `Ticket` structure
carries no other sortable key and no claim depends on another key);
`sortOrder` is the raw string, `"desc"` meaning descending. -/
structure ListParams where
  page : Nat
  limit : Nat
  status : Option Status
  priority : Option Priority
  category : Option Nat
  search : Option String
  sortOrder : String
  assignedTo : Option String
  createdBy : Option Nat
deriving DecidableEq, Repr

/-- The Mongo query object the handler assembles (field absent =
`none`). -/
structure TicketQuery where
  createdBy : Option Nat
  assignedTo : Option Nat
  status : Option Status
  priority : Option Priority
  category : Option Nat
  search : Option String
deriving DecidableEq, Repr

/-- Query assembly of the list handler: role-based scoping first
(`user` → `query.createdBy = req.user._id`; `agent` +
`assignedTo === "me"` → `query.assignedTo = req.user._id`), then the
optional filters — note `if (createdBy) query.createdBy = createdBy`
runs after the role scoping and overwrites it. -/
def buildTicketQuery (u : Requester) (p : ListParams) : TicketQuery :=
  let q : TicketQuery := ⟨none, none, none, none, none, none⟩
  let q := if u.role = Role.user then { q with createdBy := some u.id }
    else if u.role = Role.agent then
      (if p.assignedTo = some "me" then { q with assignedTo := some u.id } else q)
    else q
  let q := match p.status with
    | some s => { q with status := some s }
    | none => q
  let q := match p.priority with
    | some pr => { q with priority := some pr }
    | none => q
  let q := match p.category with
    | some c => { q with category := some c }
    | none => q
  let q := match p.createdBy with
    | some cb => { q with createdBy := some cb }
    | none => q
  match p.search with
  | some s => { q with search := some s }
  | none => q

/-- Case-insensitive substring containment, modelling the
`$regex .. $options: 'i'` search over subject/description (faithful for
search strings without regex metacharacters, which is all any theorem
here uses). -/
def matchesAt : List Char → List Char → Bool
  | [], _ => true
  | _ :: _, [] => false
  | a :: as, b :: bs => a == b && matchesAt as bs

def containsSeq : List Char → List Char → Bool
  | needle, [] => matchesAt needle []
  | needle, b :: bs2 => matchesAt needle (b :: bs2) || containsSeq needle bs2

def ciContains (hay needle : String) : Bool :=
  containsSeq (needle.toList.map Char.toLower) (hay.toList.map Char.toLower)

/-- Whether a stored ticket matches the assembled Mongo query. -/
def matchesQuery (q : TicketQuery) (t : Ticket) : Bool :=
  (match q.createdBy with
   | some c => t.createdBy = c
   | none => true) &&
  (match q.assignedTo with
   | some a => t.assignedTo = some a
   | none => true) &&
  (match q.status with
   | some s => t.status = s
   | none => true) &&
  (match q.priority with
   | some p => t.priority = p
   | none => true) &&
  (match q.category with
   | some c => t.category = c
   | none => true) &&
  (match q.search with
   | some s => ciContains t.subject s || ciContains t.description s
   | none => true)

/-- The full list pipeline: filter by the assembled query, sort by the
default `createdAt` key in the requested order, then apply
`skip((page-1)*limit)` and `limit(limit)`. -/
def listTickets (u : Requester) (p : ListParams) (store : List Ticket) : List Ticket :=
  let matched := store.filter (matchesQuery (buildTicketQuery u p))
  let sorted := if p.sortOrder = "desc"
    then matched.insertionSort (fun a b => b.createdAt ≤ a.createdAt)
    else matched.insertionSort (fun a b => a.createdAt ≤ b.createdAt)
  (sorted.drop ((p.page - 1) * p.limit)).take p.limit

/-- A ticket created by user 2 (otherwise identical to `sampleTicket`). -/
def otherUsersTicket : Ticket := { sampleTicket with createdBy := 2 }

/-- C4 fails on the code: requester 1 has role `user`, yet supplying the
`createdBy=2` filter overwrites the role-based scoping, and the returned
page contains a ticket created by user 2. -/
theorem list_tickets_user_scope_bypass :
    listTickets ⟨1, Role.user⟩ ⟨1, 10, none, none, none, none, "desc", none, some 2⟩
        [otherUsersTicket] = [otherUsersTicket] ∧
      otherUsersTicket.createdBy ≠ 1 := by
  decide

/-! ## Category creation (`POST /api/categories`)

The Category model file is not part of this snapshot; the `Category`
structure below carries the fields the spec's data model lists (name,
description, color, creator, active flag) — the route only ever reads
`name` here. -/

/-- A stored category document. -/
structure Category where
  name : String
  description : Option String
  color : String
  createdBy : Nat
  isActive : Bool
deriving DecidableEq, Repr

/-- The characters to which the JS regex engine gives special meaning
(the uniqueness check interpolates the raw requested name into
`new RegExp`). -/
def regexMetachars : List Char :=
  ['\\', '^', '$', '.', '|', '?', '*', '+', '(', ')', '[', ']',
    Char.ofNat 123, Char.ofNat 125]

/-- `true` when the string contains no regex metacharacter. -/
def noRegexMeta (s : String) : Bool :=
  s.toList.all (fun c => decide (c ∉ regexMetachars))

/-- Anchored case-insensitive matching of a pattern against a string,
for the regex fragment in which `.` (match any one character) is the
only metacharacter present; every other character matches itself
case-insensitively.  This models
`new RegExp('^' + name + '$', 'i').test(s)` for such patterns; theorems
about patterns free of all metacharacters use `noRegexMeta`. -/
def ciMatchAux : List Char → List Char → Bool
  | [], [] => true
  | p :: ps, c :: cs =>
    if p = '.' ∨ p.toLower = c.toLower then ciMatchAux ps cs else false
  | _, _ => false

/-- String version of `ciMatchAux`. -/
def ciRegexMatch (pat s : String) : Bool :=
  ciMatchAux pat.toList s.toList

/-- Plain case-insensitive string equality. -/
def ciEq (a b : String) : Bool :=
  decide (a.toList.map Char.toLower = b.toList.map Char.toLower)

/-- One hex digit, either case (the color validator's `[0-9A-F]` with
the `i` flag). -/
def isHexDigitCI (c : Char) : Bool :=
  ('0' ≤ c && c ≤ '9') || ('A' ≤ c && c ≤ 'F') || ('a' ≤ c && c ≤ 'f')

/-- The color validator `matches(/^#[0-9A-F]\x7b6\x7d$/i)`. -/
def isHexColorString (s : String) : Bool :=
  match s.toList with
  | '#' :: rest => decide (rest.length = 6) && rest.all isHexDigitCI
  | _ => false

/-- The optional description validator: trimmed length at most 200. -/
def validDescription (d : Option String) : Bool :=
  match d with
  | some s => (jsTrim s).length ≤ 200
  | none => true

/-- The optional color validator. -/
def validColor (c : Option String) : Bool :=
  match c with
  | some s => isHexColorString s
  | none => true

/-- `POST /api/categories`: admin only (`authorize('admin')`), the three
validators (name trimmed to 2–50 chars, description, color), then the
duplicate check `findOne({ name: new RegExp('^' + name + '$', 'i') })`
over all stored categories, then `Category.create` with the default
color. -/
def createCategory (u : Requester) (name : String) (description : Option String)
    (color : Option String) (store : List Category) : Except ApiError Category :=
  if ¬ u.role = Role.admin then Except.error ApiError.notAuthorized
  else if ¬ (2 ≤ (jsTrim name).length ∧ (jsTrim name).length ≤ 50) then
    Except.error ApiError.validation
  else if ¬ validDescription description then Except.error ApiError.validation
  else if ¬ validColor color then Except.error ApiError.validation
  else if store.any (fun c => ciRegexMatch (jsTrim name) c.name) then
    Except.error ApiError.conflict
  else
    Except.ok ⟨jsTrim name, description.map jsTrim, color.getD "#3B82F6", u.id, true⟩

/-- On patterns with no `.`, the fragment matcher is exactly
case-insensitive equality. -/
theorem ciMatchAux_no_dot (ps : List Char) : ∀ (cs : List Char), (∀ p ∈ ps, p ≠ '.') →
    (ciMatchAux ps cs = true ↔ ps.map Char.toLower = cs.map Char.toLower) := by
  induction ps with
  | nil =>
    intro cs h
    cases cs <;> simp [ciMatchAux]
  | cons p ps2 ih =>
    intro cs h
    cases cs with
    | nil => simp [ciMatchAux]
    | cons c cs2 =>
      have hp : p ≠ '.' := h p (List.mem_cons_self p ps2)
      have hrest : ∀ q ∈ ps2, q ≠ '.' := fun q hq => h q (List.mem_cons_of_mem p hq)
      simp only [ciMatchAux, List.map_cons, List.cons.injEq]
      by_cases hpc : p.toLower = c.toLower
      · rw [if_pos (Or.inr hpc)]
        rw [ih cs2 hrest]
        simp [hpc]
      · rw [if_neg (by rintro (h1 | h2); exact hp h1; exact hpc h2)]
        simp [hpc]

/-- For metacharacter-free patterns the interpolated regex test is
case-insensitive equality. -/
theorem ciRegexMatch_eq_ciEq {pat : String} (s : String)
    (hmeta : noRegexMeta pat = true) :
    ciRegexMatch pat s = true ↔ ciEq pat s = true := by
  have hall := List.all_eq_true.mp hmeta
  have hdot : ∀ p ∈ pat.toList, p ≠ '.' := by
    intro p hp heq
    have := of_decide_eq_true (hall p hp)
    apply this
    rw [heq]
    decide
  unfold ciRegexMatch ciEq
  rw [ciMatchAux_no_dot pat.toList s.toList hdot]
  simp

/-- Counterexample to C9 as stated: the requested name `"a.c"` is not
case-insensitively equal to any stored name, yet creation fails with the
conflict error, because the name is interpolated into the regex and `.`
matches the `b` of the stored `"abc"`. -/
theorem category_conflict_counterexample :
    createCategory ⟨1, Role.admin⟩ "a.c" none none
        [⟨"abc", none, "#3B82F6", 1, true⟩] = Except.error ApiError.conflict ∧
      ([⟨"abc", none, "#3B82F6", 1, true⟩] : List Category).all
        (fun c => !(ciEq "a.c" c.name)) = true :=
  ⟨rfl, by decide⟩

/-- C9 (amended): for an admin request whose (trimmed) name is 2–50
characters and contains no regex metacharacter, and whose description
and color pass validation, creation fails with the conflict error iff
some stored category (active or not) has a case-insensitively equal
name; otherwise the new category is stored with the trimmed name.  (For
names containing metacharacters the duplicate check compares by regex
match instead of equality.) -/
theorem createCategory_conflict_iff (u : Requester) (name : String)
    (description color : Option String) (store : List Category)
    (hadmin : u.role = Role.admin)
    (hmeta : noRegexMeta (jsTrim name) = true)
    (hlen : 2 ≤ (jsTrim name).length ∧ (jsTrim name).length ≤ 50)
    (hdesc : validDescription description = true)
    (hcolor : validColor color = true) :
    (createCategory u name description color store = Except.error ApiError.conflict ↔
      ∃ c ∈ store, ciEq (jsTrim name) c.name = true) ∧
    ((¬ ∃ c ∈ store, ciEq (jsTrim name) c.name = true) →
      createCategory u name description color store =
        Except.ok ⟨jsTrim name, description.map jsTrim, color.getD "#3B82F6", u.id, true⟩) := by
  have hany : (store.any (fun c => ciRegexMatch (jsTrim name) c.name) = true) ↔
      ∃ c ∈ store, ciEq (jsTrim name) c.name = true := by
    rw [List.any_eq_true]
    constructor
    · rintro ⟨c, hc, hm⟩
      exact ⟨c, hc, (ciRegexMatch_eq_ciEq c.name hmeta).mp hm⟩
    · rintro ⟨c, hc, hm⟩
      exact ⟨c, hc, (ciRegexMatch_eq_ciEq c.name hmeta).mpr hm⟩
  unfold createCategory
  rw [if_neg (by simp [hadmin]), if_neg (by simp [hlen.1, hlen.2]),
    if_neg (by simp [hdesc]), if_neg (by simp [hcolor])]
  by_cases hconf : store.any (fun c => ciRegexMatch (jsTrim name) c.name) = true
  · rw [if_pos hconf]
    exact ⟨by simp [hany.mp hconf], fun hno => absurd (hany.mp hconf) hno⟩
  · rw [if_neg hconf]
    refine ⟨⟨fun hc => absurd hc (by simp), fun hex => absurd (hany.mpr hex) hconf⟩,
      fun hno => rfl⟩

/-- Witness for the amended C9: `"ABC"` conflicts with the stored
`"abc"`; `"Billing"` does not and is created. -/
theorem createCategory_conflict_iff_witness :
    createCategory ⟨1, Role.admin⟩ "ABC" none none
        [⟨"abc", none, "#3B82F6", 1, true⟩] = Except.error ApiError.conflict ∧
      createCategory ⟨1, Role.admin⟩ "Billing" none none
          [⟨"abc", none, "#3B82F6", 1, true⟩] =
        Except.ok ⟨jsTrim "Billing", none, "#3B82F6", 1, true⟩ :=
  ⟨(createCategory_conflict_iff ⟨1, Role.admin⟩ "ABC" none none
      [⟨"abc", none, "#3B82F6", 1, true⟩] rfl (by decide) (by decide) rfl rfl).1.mpr
      ⟨⟨"abc", none, "#3B82F6", 1, true⟩, by decide, by decide⟩,
   (createCategory_conflict_iff ⟨1, Role.admin⟩ "Billing" none none
      [⟨"abc", none, "#3B82F6", 1, true⟩] rfl (by decide) (by decide) rfl rfl).2
      (by decide)⟩

end QuickDesk
